import Mathlib

/-!
Shallow embedding of `src/chrono_vehicle/utils/ChVehicleIrrApp.cpp` (Project
Chrono vehicle Irrlicht wrapper): the custom chase-camera event receiver
(`ChCameraEventReceiver::OnEvent`), the application constructor, the
per-frame `Advance` sub-stepping loop, and the sound-pitch gating.

The `ChChaseCamera` class itself (its `Initialize`, `Update`, `Zoom`,
`Turn`, `SetState`, `GetStateName` bodies) lives outside this repository
snapshot; where a claim depends on it, the corresponding definition is
modelled from the specification and marked `Modelled from the spec:` in its
doc comment.

Real arithmetic (C++ `double`) is embedded as exact rationals `ℚ`.
-/

namespace ChronoVehicle

/-- 3D point/vector (C++ `ChVector<>`), componentwise rationals. -/
abbrev Vec3 : Type := ℚ × ℚ × ℚ

/-- Componentwise vector addition. -/
def vadd (a b : Vec3) : Vec3 := (a.1 + b.1, a.2.1 + b.2.1, a.2.2 + b.2.2)

/-- Componentwise vector subtraction. -/
def vsub (a b : Vec3) : Vec3 := (a.1 - b.1, a.2.1 - b.2.1, a.2.2 - b.2.2)

/-- Scalar multiple of a vector. -/
def vscale (k : ℚ) (a : Vec3) : Vec3 := (k * a.1, k * a.2.1, k * a.2.2)

/-- The four chase-camera modes (`utils::ChChaseCamera::{Chase,Follow,Track,Inside}`).
The type is closed: these are the only modes, so `SetState` can accept no
other value and exactly one mode is held at any time (a single field). -/
inductive ChaseMode where
  | Chase
  | Follow
  | Track
  | Inside
deriving DecidableEq, Repr

/-- Key codes relevant to `ChCameraEventReceiver::OnEvent` (lines 38-79).
`otherKey code` stands for any Irrlicht key not named in the switch
statements; the receiver treats all of them identically. -/
inductive KeyCode where
  | keyDown
  | keyUp
  | keyLeft
  | keyRight
  | key1
  | key2
  | key3
  | key4
  | keyV
  | otherKey (code : Nat)
deriving DecidableEq, Repr

/-- An Irrlicht `SEvent` as seen by the receiver: either a keyboard event
(key code plus the `PressedDown` flag) or any non-keyboard event
(`EventType != EET_KEY_INPUT_EVENT`), abstracted by a kind tag. -/
inductive SEvent where
  | keyInput (key : KeyCode) (pressedDown : Bool)
  | nonKeyEvent (kind : Nat)
deriving DecidableEq, Repr

/-- The command entry points the receiver can invoke: the five camera
commands (`Zoom`, `Turn` with direction, `SetState` with mode) plus the
vehicle call `LogConstraintViolations` bound to key V. -/
inductive CameraCommand where
  | zoom (dir : Int)
  | turn (dir : Int)
  | setState (m : ChaseMode)
  | logConstraintViolations
deriving DecidableEq, Repr

/-- `ChCameraEventReceiver::OnEvent` (lines 38-79): returns the C++ `bool`
result together with the command issued, if any.  Arrow keys act on
`PressedDown`; keys 1-4 and V act on the `else` (release) branch; every
other event falls through to `return false` with no side effect. -/
def ChCameraEventReceiver.OnEvent : SEvent → Bool × Option CameraCommand
  | .nonKeyEvent _ => (false, none)
  | .keyInput k pressed =>
    if pressed then
      match k with
      | .keyDown => (true, some (.zoom 1))
      | .keyUp => (true, some (.zoom (-1)))
      | .keyLeft => (true, some (.turn 1))
      | .keyRight => (true, some (.turn (-1)))
      | _ => (false, none)
    else
      match k with
      | .key1 => (true, some (.setState .Chase))
      | .key2 => (true, some (.setState .Follow))
      | .key3 => (true, some (.setState .Track))
      | .key4 => (true, some (.setState .Inside))
      | .keyV => (true, some .logConstraintViolations)
      | _ => (false, none)

/-- Spec-side characterization (for the refinement claim about the
receiver's frame condition): the nine handled key events — the four arrow
keys pressed, and keys 1-4 or V released. -/
def spec_handledEvent : SEvent → Bool
  | .keyInput .keyDown true => true
  | .keyInput .keyUp true => true
  | .keyInput .keyLeft true => true
  | .keyInput .keyRight true => true
  | .keyInput .key1 false => true
  | .keyInput .key2 false => true
  | .keyInput .key3 false => true
  | .keyInput .key4 false => true
  | .keyInput .keyV false => true
  | _ => false

/-- Modelled from the spec: the tracked body's "local driver coordinate
system" (`GetLocalDriverCoordsys`, not under src/): an origin plus forward
and up directions, enough to place the camera behind and above the anchor. -/
structure ChCoordsys where
  pos : Vec3
  fwd : Vec3
  up : Vec3
deriving DecidableEq, Repr

/-- Modelled from the spec: the `ChChaseCamera` controller state (§3 of the
spec; the class body is not under src/): active mode, anchor offset,
distance/height tuning, accumulated operator intents, and the authoritative
camera/target output points. -/
structure ChChaseCamera where
  mode : ChaseMode
  anchorOffset : Vec3
  distance : ℚ
  height : ℚ
  minDistance : ℚ
  zoomIntent : Int
  turnIntent : Int
  cameraPos : Vec3
  targetPos : Vec3
deriving DecidableEq, Repr

/-- Modelled from the spec: `ChChaseCamera::Initialize` (not under src/).
Per §3/§4.2 it establishes the anchor offset, nominal distance and height,
resets the smoothing state and intents, starts in Chase mode, and leaves
well-defined output points (the raw Chase geometry: target at the anchor's
world position, camera `dist` behind it along the body's forward axis and
`ht` above it).  The configured minimum positive distance is a fixed tuning
constant. -/
def ChChaseCamera.Initialize (anchor : Vec3) (csys : ChCoordsys) (dist ht : ℚ) :
    ChChaseCamera :=
  let target := vadd csys.pos anchor
  { mode := .Chase
    anchorOffset := anchor
    distance := dist
    height := ht
    minDistance := 1/2
    zoomIntent := 0
    turnIntent := 0
    cameraPos := vadd (vsub target (vscale dist csys.fwd)) (vscale ht csys.up)
    targetPos := target }

/-- Modelled from the spec: `ChChaseCamera::SetState` (§4.1/§4.3, not under
src/): immediate, unconditional mode switch; no other state changes. -/
def ChChaseCamera.SetState (c : ChChaseCamera) (m : ChaseMode) : ChChaseCamera :=
  { c with mode := m }

/-- Modelled from the spec: the human-readable label for each mode, returned
by `GetStateName` (§4.1); one distinct label per mode. -/
def ChaseMode.stateName : ChaseMode → String
  | .Chase => "Chase"
  | .Follow => "Follow"
  | .Track => "Track"
  | .Inside => "Inside"

/-- Modelled from the spec: `ChChaseCamera::GetStateName` (not under src/)
returns the label of the active mode. -/
def ChChaseCamera.GetStateName (c : ChChaseCamera) : String :=
  c.mode.stateName

/-- Modelled from the spec: the `Zoom(direction)` command (§4.3, not under
src/): increments/decrements the accumulated `zoomIntent` by one unit. -/
def ChChaseCamera.Zoom (c : ChChaseCamera) (dir : Int) : ChChaseCamera :=
  { c with zoomIntent := c.zoomIntent + dir }

/-- Modelled from the spec: consumption of `zoomIntent` during `Update`
(§4.2 item 2 and §4.3, not under src/): one unit of intent produces one
discrete distance adjustment of size `δ` and the intent is reset; positive
intent (zoom in) decreases `distance`, clamped to the configured minimum
positive distance; negative intent (zoom out) increases it, unbounded. -/
def ChChaseCamera.applyZoom (c : ChChaseCamera) (δ : ℚ) : ChChaseCamera :=
  if c.zoomIntent > 0 then
    { c with distance := max c.minDistance (c.distance - δ), zoomIntent := 0 }
  else if c.zoomIntent < 0 then
    { c with distance := c.distance + δ, zoomIntent := 0 }
  else c

/-- The sub-stepping loop of `ChVehicleIrrApp::Advance` (lines 185-190),
generic over the camera state and its `Update` function:

    double t = 0;
    while (t < step) {
        double h = std::min<>(m_stepsize, step - t);
        m_camera.Update(step);      // NB: the source passes `step`, not `h`
        t += h;
    }

`fuel` bounds the recursion; `none` means the fuel was exhausted before the
loop condition became false. -/
def advLoop {Cam : Type} (update : ℚ → Cam → Cam) (stepsize step : ℚ) :
    ℚ → Cam → Nat → Option Cam
  | t, c, 0 => if t < step then none else some c
  | t, c, fuel + 1 =>
    if t < step then
      advLoop update stepsize step (t + min stepsize (step - t)) (update step c) fuel
    else some c

/-- State of the `ChVehicleIrrApp` wrapper relevant to the claims: the chase
camera (generic, since `ChChaseCamera`'s body is external) and the position
and target last handed to the Irrlicht scene camera
(`camera->setPosition` / `camera->setTarget`). -/
structure VehicleApp (Cam : Type) where
  camera : Cam
  rendererPos : Vec3
  rendererTarget : Vec3
deriving DecidableEq, Repr

/-- `ChVehicleIrrApp::Advance` (lines 182-199): run the sub-stepping loop,
then hand the camera's current position and target to the renderer's
camera.  The fuel `⌈step / stepsize⌉₊` is the loop's iteration count. -/
def ChVehicleIrrApp.Advance {Cam : Type} (update : ℚ → Cam → Cam)
    (getPos getTarget : Cam → Vec3) (stepsize step : ℚ) (app : VehicleApp Cam) :
    Option (VehicleApp Cam) :=
  match advLoop update stepsize step 0 app.camera ⌈step / stepsize⌉₊ with
  | some c => some { camera := c, rendererPos := getPos c, rendererTarget := getTarget c }
  | none => none

/-- A run of successive `Advance` calls, each with its own step and sampled
tracked-body frame; collects the (position, target) pair handed to the
renderer after every call. -/
def runTraj {Cam Frame : Type} (update : Frame → ℚ → Cam → Cam)
    (getPos getTarget : Cam → Vec3) (stepsize : ℚ) :
    List (ℚ × Frame) → VehicleApp Cam → Option (List (Vec3 × Vec3))
  | [], _ => some []
  | (step, f) :: rest, app =>
    match ChVehicleIrrApp.Advance (update f) getPos getTarget stepsize step app with
    | some app1 =>
      match runTraj update getPos getTarget stepsize rest app1 with
      | some tl => some ((app1.rendererPos, app1.rendererTarget) :: tl)
      | none => none
    | none => none

/-- The `ChVehicleIrrApp` constructor (lines 84-121): default
`m_stepsize = 1e-3`; initializes the chase camera with anchor `(0,0,1)`,
the vehicle's local driver coordinate system, distance `6.0` and height
`0.5`; reads `GetCameraPos`/`GetTargetPos` and sets the Irrlicht camera's
position and target from them, before any `Advance`/`Update` runs. -/
def ChVehicleIrrApp.mkApp (csys : ChCoordsys) : VehicleApp ChChaseCamera :=
  let cam := ChChaseCamera.Initialize ((0 : ℚ), (0 : ℚ), (1 : ℚ)) csys 6 (1/2)
  { camera := cam, rendererPos := cam.cameraPos, rendererTarget := cam.targetPos }

/-- The default `m_stepsize` set by the constructor (line 92). -/
def ChVehicleIrrApp.defaultStepsize : ℚ := 1/1000

/-- The sound-pitch block of `ChVehicleIrrApp::Advance` (lines 201-218),
entered when `m_car_sound` is non-null.  `counter` is the process-wide
`static int stepsbetweensound`, modelled outside the instance state exactly
because it is a C++ function-local static shared by all instances.
`engineRpm` stands for `GetMotorSpeed() * 60 / 2π`.  Returns the new
counter, the new paused flag, and the playback speed applied (if any). -/
def soundStep (engineRpm : ℚ) (counter : Int) (paused : Bool) :
    Int × Bool × Option ℚ :=
  let counter1 := counter + 1
  let soundspeed0 := engineRpm / 8000
  let soundspeed := if soundspeed0 < 1/10 then (1/10 : ℚ) else soundspeed0
  if counter1 > 20 then (0, false, some soundspeed)
  else (counter1, paused, none)

/-- Helper: the sub-stepping loop returns within `fuel` iterations as soon as
`step - t ≤ fuel * stepsize`, because each iteration advances the
accumulated time `t` by `min stepsize (step - t)`. -/
theorem advLoop_isSome {Cam : Type} (update : ℚ → Cam → Cam) (stepsize step : ℚ)
    (hss : 0 < stepsize) :
    ∀ (fuel : Nat) (t : ℚ) (c : Cam), step - t ≤ (fuel : ℚ) * stepsize →
      (advLoop update stepsize step t c fuel).isSome := by
  intro fuel
  induction fuel with
  | zero =>
    intro t c h
    have ht : ¬ t < step := by
      push_cast at h
      exact not_lt.2 (by linarith)
    simp [advLoop, ht]
  | succ n ih =>
    intro t c h
    by_cases hlt : t < step
    · simp only [advLoop, hlt, if_true]
      apply ih
      rcases le_total stepsize (step - t) with h1 | h1
      · rw [min_eq_left h1]
        push_cast at h ⊢
        linarith
      · rw [min_eq_right h1]
        have hn : (0 : ℚ) ≤ (n : ℚ) * stepsize := by positivity
        linarith
    · simp [advLoop, hlt]

/-- C2: for finite `step > 0` (and a positive configured sub-step), the
sub-stepping loop of `Advance` terminates, in at most
`⌈step / m_stepsize⌉` iterations, because each iteration advances the
accumulated time `t` by `min(m_stepsize, step - t) > 0`. -/
theorem advance_loop_terminates {Cam : Type} (update : ℚ → Cam → Cam)
    (stepsize step : ℚ) (c : Cam) (hss : 0 < stepsize) (hstep : 0 < step) :
    (advLoop update stepsize step 0 c ⌈step / stepsize⌉₊).isSome := by
  apply advLoop_isSome update stepsize step hss
  rw [sub_zero]
  have h1 : step / stepsize ≤ (⌈step / stepsize⌉₊ : ℚ) := Nat.le_ceil _
  exact (div_le_iff₀ hss).mp h1

/-- Witness for `advance_loop_terminates`: the default sub-step `1/1000`
and `step = 1/500` are positive, and the loop indeed returns. -/
theorem advance_loop_terminates_witness :
    (0 : ℚ) < 1/1000 ∧ (0 : ℚ) < 1/500 ∧
    (advLoop (fun _ c => c) (1/1000) (1/500) 0 (0 : ℚ)
      ⌈(1/500 : ℚ) / (1/1000)⌉₊).isSome :=
  ⟨by norm_num, by norm_num,
    advance_loop_terminates (fun _ c => c) (1/1000) (1/500) 0
      (by norm_num) (by norm_num)⟩

/-- C1 (code bug, line 188): with the default `m_stepsize = 1/1000` and
`step = 2/1000` the loop runs exactly twice, but each iteration calls the
camera update with the FULL `step` — the source passes `step`, not the
computed sub-increment `h`.  A camera that records its update arguments
receives `[2/1000, 2/1000]`, each argument exceeding the maximum sub-step
`1/1000`; a camera that accumulates the time it is advanced by ends at
`4/1000`, overshooting the requested `2/1000` even though the loop's own
accumulator `t` consumed `2/1000` exactly. -/
theorem advance_passes_full_step_at_failing_input :
    advLoop (fun s tr => s :: tr) (1/1000) (2/1000) 0 ([] : List ℚ) 2 =
      some [2/1000, 2/1000]
    ∧ ¬ ((2/1000 : ℚ) ≤ 1/1000)
    ∧ advLoop (fun h x => x + h) (1/1000) (2/1000) 0 (0 : ℚ) 2 = some (4/1000)
    ∧ (4/1000 : ℚ) ≠ 2/1000 := by
  refine ⟨?_, by norm_num, ?_, by norm_num⟩ <;>
    norm_num [advLoop, min_def]

/-- C3: `Advance(0)` executes the sub-stepping loop body zero times: the
camera state is unchanged and the position/target handed to the renderer
are the camera's last computed values. -/
theorem advance_zero_step {Cam : Type} (update : ℚ → Cam → Cam)
    (getPos getTarget : Cam → Vec3) (stepsize : ℚ) (app : VehicleApp Cam) :
    ChVehicleIrrApp.Advance update getPos getTarget stepsize 0 app =
      some { camera := app.camera, rendererPos := getPos app.camera,
             rendererTarget := getTarget app.camera } := by
  unfold ChVehicleIrrApp.Advance
  rw [zero_div, Nat.ceil_zero]
  simp [advLoop]

/-- C4: the update is deterministic — starting twice from the same
controller state and applying the same sequence of `Advance` calls with the
same sampled tracked-body frames yields identical sequences of renderer
position/target pairs; the result depends on nothing but these inputs. -/
theorem advance_deterministic {Cam Frame : Type} (update : Frame → ℚ → Cam → Cam)
    (getPos getTarget : Cam → Vec3) (stepsize : ℚ) (inputs : List (ℚ × Frame))
    (app1 app2 : VehicleApp Cam) (h : app1 = app2) :
    runTraj update getPos getTarget stepsize inputs app1 =
      runTraj update getPos getTarget stepsize inputs app2 := by
  rw [h]

/-- Witness for `advance_deterministic` at a concrete one-call run. -/
theorem advance_deterministic_witness :
    (⟨(), ((0 : ℚ), (0 : ℚ), (0 : ℚ)), ((0 : ℚ), (0 : ℚ), (0 : ℚ))⟩ : VehicleApp Unit) =
        ⟨(), ((0 : ℚ), (0 : ℚ), (0 : ℚ)), ((0 : ℚ), (0 : ℚ), (0 : ℚ))⟩ ∧
    runTraj (fun (_ : Unit) (_ : ℚ) (c : Unit) => c)
        (fun _ => ((0 : ℚ), (0 : ℚ), (0 : ℚ))) (fun _ => ((0 : ℚ), (0 : ℚ), (0 : ℚ)))
        (1/1000) [((1 : ℚ), ())]
        ⟨(), ((0 : ℚ), (0 : ℚ), (0 : ℚ)), ((0 : ℚ), (0 : ℚ), (0 : ℚ))⟩ =
      runTraj (fun (_ : Unit) (_ : ℚ) (c : Unit) => c)
        (fun _ => ((0 : ℚ), (0 : ℚ), (0 : ℚ))) (fun _ => ((0 : ℚ), (0 : ℚ), (0 : ℚ)))
        (1/1000) [((1 : ℚ), ())]
        ⟨(), ((0 : ℚ), (0 : ℚ), (0 : ℚ)), ((0 : ℚ), (0 : ℚ), (0 : ℚ))⟩ :=
  ⟨rfl, advance_deterministic (fun _ _ c => c) _ _ (1/1000) [((1 : ℚ), ())] _ _ rfl⟩

/-- Counterexample to C5: pressing key "1" (a key-down event) issues NO
command and `OnEvent` returns `false`; the `SetState(Chase)` command is not
issued on key-press, contradicting the claim that all five command entry
points are issued on key-down events. -/
theorem setstate_not_issued_on_keypress :
    ChCameraEventReceiver.OnEvent (.keyInput .key1 true) = (false, none) ∧
    ChCameraEventReceiver.OnEvent (.keyInput .key1 true) ≠
      (true, some (.setState .Chase)) := by
  exact ⟨rfl, by simp [ChCameraEventReceiver.OnEvent]⟩

/-- C5 (amended): the receiver maps keys to exactly the five command entry
points, with arrow keys issuing one unit of `Zoom`/`Turn` intent on
key-press (key-down) and the four mode keys 1-4 issuing
`SetState(Chase|Follow|Track|Inside)` on key-release (key-up), one key per
state. -/
theorem camera_command_mapping :
    ChCameraEventReceiver.OnEvent (.keyInput .keyDown true) = (true, some (.zoom 1)) ∧
    ChCameraEventReceiver.OnEvent (.keyInput .keyUp true) = (true, some (.zoom (-1))) ∧
    ChCameraEventReceiver.OnEvent (.keyInput .keyLeft true) = (true, some (.turn 1)) ∧
    ChCameraEventReceiver.OnEvent (.keyInput .keyRight true) = (true, some (.turn (-1))) ∧
    ChCameraEventReceiver.OnEvent (.keyInput .key1 false) = (true, some (.setState .Chase)) ∧
    ChCameraEventReceiver.OnEvent (.keyInput .key2 false) = (true, some (.setState .Follow)) ∧
    ChCameraEventReceiver.OnEvent (.keyInput .key3 false) = (true, some (.setState .Track)) ∧
    ChCameraEventReceiver.OnEvent (.keyInput .key4 false) = (true, some (.setState .Inside)) :=
  ⟨rfl, rfl, rfl, rfl, rfl, rfl, rfl, rfl⟩

/-- Helper: the mode after a `foldl` of `SetState` calls is the last mode in
the (nonempty) list. -/
theorem foldl_SetState_mode (c : ChChaseCamera) (ms : List ChaseMode) (h : ms ≠ []) :
    (ms.foldl ChChaseCamera.SetState c).mode = ms.getLast h := by
  induction ms using List.reverseRecOn generalizing c with
  | nil => exact absurd rfl h
  | append_singleton l m _ =>
    rw [List.foldl_append, List.getLast_append]
    rfl

/-- C6: the mode set is the closed four-element type `ChaseMode` (so
`SetState` can accept nothing else and exactly one mode — the single `mode`
field — is active at any time), and after any nonempty sequence of
`SetState` calls the active mode is the last mode set and `GetStateName`
returns that mode's label. -/
theorem mode_closure (c : ChChaseCamera) (ms : List ChaseMode) (h : ms ≠ []) :
    (ms.foldl ChChaseCamera.SetState c).GetStateName = (ms.getLast h).stateName ∧
    (ms.foldl ChChaseCamera.SetState c).mode = ms.getLast h := by
  have hm := foldl_SetState_mode c ms h
  exact ⟨by unfold ChChaseCamera.GetStateName; rw [hm], hm⟩

/-- A sample driver coordinate system for concrete evaluations. -/
def sampleCsys : ChCoordsys :=
  ⟨((0 : ℚ), (0 : ℚ), (0 : ℚ)), ((1 : ℚ), (0 : ℚ), (0 : ℚ)), ((0 : ℚ), (0 : ℚ), (1 : ℚ))⟩

/-- The camera produced by the constructor's default initialization. -/
def sampleCam : ChChaseCamera :=
  ChChaseCamera.Initialize ((0 : ℚ), (0 : ℚ), (1 : ℚ)) sampleCsys 6 (1/2)

/-- Witness for `mode_closure` on the concrete sequence `[Track]`. -/
theorem mode_closure_witness :
    (([ChaseMode.Track].foldl ChChaseCamera.SetState sampleCam).GetStateName =
        ChaseMode.Track.stateName ∧
      ([ChaseMode.Track].foldl ChChaseCamera.SetState sampleCam).mode = ChaseMode.Track) := by
  have h := mode_closure sampleCam [ChaseMode.Track] (by simp)
  simpa using h

/-- C7: immediately after construction, the chase camera has been
initialized with anchor offset `(0, 0, 1)`, the vehicle's local driver
coordinate system, distance `6.0` and height `0.5`, and the renderer's
camera has been given exactly the controller's camera position and target
— before any `Advance`/`Update` runs. -/
theorem construction_initializes_camera (csys : ChCoordsys) :
    (ChVehicleIrrApp.mkApp csys).camera =
        ChChaseCamera.Initialize ((0 : ℚ), (0 : ℚ), (1 : ℚ)) csys 6 (1/2) ∧
    (ChVehicleIrrApp.mkApp csys).rendererPos =
        (ChVehicleIrrApp.mkApp csys).camera.cameraPos ∧
    (ChVehicleIrrApp.mkApp csys).rendererTarget =
        (ChVehicleIrrApp.mkApp csys).camera.targetPos :=
  ⟨rfl, rfl, rfl⟩

/-- C8: from any state with no pending intent and distance at or above the
configured minimum, a consumed `Zoom(-1)` (zoom out) intent strictly
increases `distance` (by the full adjustment, no upper clamp), while a
consumed `Zoom(+1)` (zoom in) intent never increases `distance` and never
takes it below the configured minimum positive distance. -/
theorem zoom_monotonic_and_clamped (c : ChChaseCamera) (δ : ℚ) (hδ : 0 < δ)
    (hz : c.zoomIntent = 0) (hmin : c.minDistance ≤ c.distance) :
    c.distance < ((c.Zoom (-1)).applyZoom δ).distance ∧
    ((c.Zoom (-1)).applyZoom δ).distance = c.distance + δ ∧
    ((c.Zoom 1).applyZoom δ).distance ≤ c.distance ∧
    c.minDistance ≤ ((c.Zoom 1).applyZoom δ).distance := by
  have e1 : ((c.Zoom (-1)).applyZoom δ).distance = c.distance + δ := by
    simp [ChChaseCamera.applyZoom, ChChaseCamera.Zoom, hz]
  have e2 : ((c.Zoom 1).applyZoom δ).distance = max c.minDistance (c.distance - δ) := by
    simp [ChChaseCamera.applyZoom, ChChaseCamera.Zoom, hz]
  rw [e1, e2]
  exact ⟨by linarith, rfl, max_le hmin (by linarith), le_max_left _ _⟩

/-- Witness for `zoom_monotonic_and_clamped` at the default-initialized
camera with adjustment `1`. -/
theorem zoom_monotonic_and_clamped_witness :
    (0 : ℚ) < 1 ∧ sampleCam.zoomIntent = 0 ∧ sampleCam.minDistance ≤ sampleCam.distance ∧
    (sampleCam.distance < ((sampleCam.Zoom (-1)).applyZoom 1).distance ∧
      ((sampleCam.Zoom (-1)).applyZoom 1).distance = sampleCam.distance + 1 ∧
      ((sampleCam.Zoom 1).applyZoom 1).distance ≤ sampleCam.distance ∧
      sampleCam.minDistance ≤ ((sampleCam.Zoom 1).applyZoom 1).distance) :=
  ⟨by norm_num, rfl, by norm_num [sampleCam, ChChaseCamera.Initialize],
    zoom_monotonic_and_clamped sampleCam 1 (by norm_num) rfl
      (by norm_num [sampleCam, ChChaseCamera.Initialize])⟩

/-- C9: with sound enabled, the sound block increments the shared static
counter each call; the playback speed is applied (and the sound unpaused,
with the counter reset to 0) exactly on the calls where the incremented
counter exceeds 20, and the speed applied is the computed speed clamped up
to `1/10`, hence never below `1/10`. -/
theorem sound_gating_and_clamp (engineRpm : ℚ) (c : Int) (p : Bool) :
    soundStep engineRpm c p =
        (if 20 < c + 1 then ((0 : Int), false, some (max (1/10) (engineRpm / 8000)))
         else (c + 1, p, none)) ∧
    (1/10 : ℚ) ≤ max (1/10) (engineRpm / 8000) := by
  constructor
  · unfold soundStep
    by_cases h : 20 < c + 1
    · simp only [h, if_true]
      rcases lt_or_le (engineRpm / 8000) (1/10) with h1 | h1
      · rw [if_pos h1, max_eq_left h1.le]
      · rw [if_neg (not_lt.2 h1), max_eq_right h1]
    · simp [h]
  · exact le_max_left _ _

/-- C10: `OnEvent` returns `true` exactly on the nine handled key events
(the four arrow keys pressed; keys 1-4 or V released), and it issues a
command exactly on those same events — so on every other event it returns
`false` and leaves the camera controller and vehicle untouched. -/
theorem onEvent_frame_condition (e : SEvent) :
    (ChCameraEventReceiver.OnEvent e).1 = spec_handledEvent e ∧
    (ChCameraEventReceiver.OnEvent e).2.isSome = spec_handledEvent e := by
  rcases e with ⟨k, p⟩ | n
  · cases p <;> cases k <;> simp [ChCameraEventReceiver.OnEvent, spec_handledEvent]
  · simp [ChCameraEventReceiver.OnEvent, spec_handledEvent]

end ChronoVehicle
